import Mathlib

/-!
Shallow embedding of `src/async_customtkinter/async_customtkinter.py`
(class `AsyncCTK`), together with proofs about its three cooperative loops.

Modelling conventions:
* virtual time is measured in whole milliseconds (`Ms := Nat`); the source
  works in seconds obtained as `self._update_interval / 1000`,
  `asyncio.sleep(0.01)` (= 10 ms) and `asyncio.sleep(0.1)` (= 100 ms);
* Python function objects compare by identity, so each update callable and
  each queued command is modelled by an identity token (a natural number);
* Python exceptions are values of `PyError`; a fallible operation returns
  `Except PyError _`, and a raising statement leaves the mutated object
  unchanged exactly when the mutation had not yet happened in the source;
* each `async` loop of the class is embedded as a function of the inputs the
  surrounding runtime feeds it (pending-event counts, window liveness,
  coroutine completion times, queued commands), returning the observable
  outcome of the corresponding source lines.
-/

namespace ACTK

/-- Virtual time in milliseconds. -/
abbrev Ms := Nat

/-- Identity token of a Python function object (update callables and queued
commands compare by object identity). -/
abbrev FuncId := Nat

/-- The Python exceptions relevant to the embedded code. -/
inductive PyError where
  | valueError
  | tclError
  | timeoutError
  | cancelledError
  | other (code : Nat)
deriving DecidableEq, Repr

/-- Python `list.remove(x)`: removes the first element equal to `x` and
raises `ValueError` when `x` occurs nowhere in the list (in which case the
list is left unmodified, which the `Except` error branch encodes). -/
def list_remove (l : List FuncId) (x : FuncId) : Except PyError (List FuncId) :=
  if x ∈ l then .ok (l.erase x) else .error .valueError

/-- `add_update_func` (source lines 39-43): `self._update_funcs.append(update_func)`,
an append at the end of the registry list. -/
def add_update_func (l : List FuncId) (f : FuncId) : List FuncId :=
  l ++ [f]

/-- `remove_update_func` (source lines 46-50): `self._update_funcs.remove(update_func)`,
Python list removal by equality, which for function objects is identity. -/
def remove_update_func (l : List FuncId) (f : FuncId) : Except PyError (List FuncId) :=
  list_remove l f

/-- The mutable attributes of an `AsyncCTK` instance (source lines 10-23). -/
structure AppState where
  update_interval : Ms
  update_funcs : List FuncId
  commands_queue : List FuncId
  application_closed : Bool
  window_exists : Bool
deriving Repr, DecidableEq

/-- `AsyncCTK.__init__` followed by `_prepare_async` (source lines 10-36):
the update interval is stored, the registry and command queue start empty,
`self._application_closed = False`, and `_prepare_async` sets
`self._window_exists = True`. -/
def AsyncCTK_init (update_interval : Ms) : AppState :=
  { update_interval := update_interval
    update_funcs := []
    commands_queue := []
    application_closed := false
    window_exists := true }

/-- A registry mutation performed by a caller of the public surface. -/
inductive RegMutation where
  | addFunc (f : FuncId)
  | removeFunc (f : FuncId)
deriving Repr, DecidableEq

/-- Effect of one registry mutation on `self._update_funcs`; a
`remove_update_func` of an absent function raises to its caller and leaves
the list unchanged. -/
def applyRegMutation (l : List FuncId) : RegMutation → List FuncId
  | .addFunc f => add_update_func l f
  | .removeFunc f =>
    match remove_update_func l f with
    | .ok l2 => l2
    | .error _ => l

/-- The operations that touch an `AsyncCTK` instance after construction:
the two public registry mutators, a call of a wrapper returned by
`execute_async_command` (which enqueues onto `commands_queue`, lines 68-73),
one iteration of the GUI pump (lines 111-120, reads only), one dequeue by
the command dispatcher (lines 99-101), and one update-scheduler cycle
(lines 130-143, reads the registry and the flag). -/
inductive Op where
  | opAdd (f : FuncId)
  | opRemove (f : FuncId)
  | opWrapperCall (c : FuncId)
  | opGuiTick
  | opCommandDequeue
  | opUpdateCycle
deriving Repr, DecidableEq

/-- State effect of each operation, line by line from the source.  No
operation ever writes `application_closed`: the flag is assigned only in
`__init__` (line 22). -/
def applyOp (st : AppState) : Op → AppState
  | .opAdd f => { st with update_funcs := add_update_func st.update_funcs f }
  | .opRemove f =>
    match remove_update_func st.update_funcs f with
    | .ok l2 => { st with update_funcs := l2 }
    | .error _ => st
  | .opWrapperCall c => { st with commands_queue := st.commands_queue ++ [c] }
  | .opGuiTick => st
  | .opCommandDequeue =>
    match st.commands_queue with
    | [] => st
    | _ :: rest => { st with commands_queue := rest }
  | .opUpdateCycle => st

/-- Run a sequence of operations from a freshly constructed instance. -/
def runOps (update_interval : Ms) (ops : List Op) : AppState :=
  ops.foldl applyOp (AsyncCTK_init update_interval)

/-- The exit check of `_update_func_mainloop` (source lines 142-143):
`if self._application_closed: break`. -/
def update_loop_exit_check (st : AppState) : Bool :=
  st.application_closed

/-- Largest element of a list of completion times (0 for the empty list):
the inner `asyncio.gather(*coroutines)` resolves when its last coroutine
does, and `gather()` of nothing resolves immediately. -/
def listMax (l : List Ms) : Ms :=
  l.foldr max 0

/-- Observable outcome of one iteration of `_update_func_mainloop`
(source lines 130-140). -/
structure CycleOutcome where
  /-- The coroutines created by the comprehension at line 131, in registry
  order (identified by the callable that produced each). -/
  invoked : List FuncId
  /-- Virtual duration of the iteration, from evaluating line 131 to the
  `await` at lines 134-137 resolving (normally or by `TimeoutError`). -/
  duration : Ms
  /-- One entry per warning printed at lines 139-140, carrying the interval
  value the message reports. -/
  overrun_reports : List Ms
  /-- Per created coroutine: was it cancelled by `asyncio.wait_for` firing
  its deadline. -/
  cancelled : List Bool
  /-- Contents of `self._update_funcs` when the iteration ends. -/
  registryAfter : List FuncId
deriving Repr, DecidableEq

/-- One iteration of `_update_func_mainloop` (source lines 130-140).

`reg` is `self._update_funcs` when the iteration starts; `durOf f` is the
virtual time after which the coroutine produced by callable `f` would
resolve; `muts` are the registry mutations callers perform while the
iteration's `await` is in flight (line 131 runs before that `await`, so they
only land in `registryAfter`).

Timing, from the source's combinators: the inner `asyncio.gather(*coroutines)`
resolves at `listMax durations`; `asyncio.wait_for(..., timeout=interval)`
resolves with it when that is within the deadline and otherwise cancels the
still-pending coroutines and raises `asyncio.TimeoutError` at the deadline
(a coroutine resolving exactly at the deadline is taken as having completed);
`asyncio.sleep(interval)` resolves at `interval`; the outer `asyncio.gather`
of the two resolves at the later of the two, except that an exception
propagates as soon as raised.  The `except asyncio.TimeoutError` arm prints
one warning naming `self._update_interval`. -/
def updateCycle (interval : Ms) (reg : List FuncId) (durOf : FuncId → Ms)
    (muts : List RegMutation) : CycleOutcome :=
  let coroutines := reg
  let durations := coroutines.map durOf
  let innerGatherDone := listMax durations
  let waitForResolved := if interval < innerGatherDone then interval else innerGatherDone
  let sleepResolved := interval
  { invoked := coroutines
    duration :=
      if interval < innerGatherDone then waitForResolved
      else max waitForResolved sleepResolved
    overrun_reports := if interval < innerGatherDone then [interval] else []
    cancelled := durations.map (fun d => decide (interval < d))
    registryAfter := muts.foldl applyRegMutation reg }

/-- The scheduler's `while True` loop (source line 130) iterated `n` times:
virtual start time of cycle `n` and the registry contents it will snapshot.
`durOf n` and `muts n` are the coroutine durations and concurrent registry
mutations of cycle `n`.  The loop's only exit is the flag check at lines
142-143, and the flag is never set (the termination-signal invariant proved
below), so every cycle is followed by another. -/
def schedulerState (interval : Ms) (reg0 : List FuncId) (durOf : Nat → FuncId → Ms)
    (muts : Nat → List RegMutation) : Nat → Ms × List FuncId
  | 0 => (0, reg0)
  | n + 1 =>
    let p := schedulerState interval reg0 durOf muts n
    let c := updateCycle interval p.2 (durOf n) (muts n)
    (p.1 + c.duration, c.registryAfter)

/-- The coroutines cycle `n` creates at its line-131 snapshot. -/
def cycleTaskSet (interval : Ms) (reg0 : List FuncId) (durOf : Nat → FuncId → Ms)
    (muts : Nat → List RegMutation) (n : Nat) : List FuncId :=
  (updateCycle interval (schedulerState interval reg0 durOf muts n).2 (durOf n) (muts n)).invoked

/-- Environment input of one iteration of `_gui_mainloop`: how many times
`self.dooneevent(_tkinter.DONT_WAIT)` returns a positive value before
returning 0, and whether `self.winfo_exists()` succeeds (the window is
alive) or raises `TclError` (the window was destroyed). -/
structure GuiTickInput where
  pendingEvents : Nat
  windowAlive : Bool
deriving Repr, DecidableEq

/-- Observable outcome of one iteration of `_gui_mainloop`: either the
iteration processed the pending events and suspended for the fixed delay
before looping again, or it processed them and left the loop via `break`. -/
inductive GuiTickResult where
  | looped (processed : Nat) (sleptMs : Ms)
  | exited (processed : Nat)
deriving Repr, DecidableEq

/-- Events processed during the iteration, in either outcome. -/
def GuiTickResult.processed : GuiTickResult → Nat
  | .looped p _ => p
  | .exited p => p

/-- One iteration of `_gui_mainloop` (source lines 111-120): the inner
`while self.dooneevent(_tkinter.DONT_WAIT) > 0: pass` drains every pending
event; then `self.winfo_exists()` either succeeds, after which
`await asyncio.sleep(0.01)` suspends for 10 ms, or raises `TclError`,
which the `except` arm turns into `break` — a normal exit, not an error. -/
def gui_tick (inp : GuiTickInput) : GuiTickResult :=
  let processed := inp.pendingEvents
  if inp.windowAlive then .looped processed 10 else .exited processed

/-- How a run of the GUI pump over a finite input trace ended. -/
inductive GuiOutcome where
  | normalExit
  | traceExhausted
deriving Repr, DecidableEq

/-- The `while True` loop of `_gui_mainloop` driven by a finite trace of
environment inputs: iterates `gui_tick` until the liveness check fails
(normal exit) or the supplied trace runs out (the loop itself would go on). -/
def gui_mainloop_run : List GuiTickInput → List GuiTickResult × GuiOutcome
  | [] => ([], .traceExhausted)
  | inp :: rest =>
    match gui_tick inp with
    | .exited p => ([.exited p], .normalExit)
    | .looped p s =>
      let r := gui_mainloop_run rest
      (.looped p s :: r.1, r.2)

/-- What awaiting one queued command yields: the handler's gather future
either resolves, or re-raises the handler's exception. -/
inductive CmdOutcome where
  | ok
  | raises (e : PyError)
deriving Repr, DecidableEq

/-- How a run of `_command_mainloop` over the queued commands ended: either
every queued command was awaited and the loop keeps idling (100 ms sleeps),
or an awaited command raised and the exception escaped the loop, which has
no `try` around the `await` (source lines 98-102). `executed` counts the
commands awaited to completion before the outcome. -/
inductive DispatcherResult where
  | stillRunning (executed : Nat)
  | raised (e : PyError) (executed : Nat)
deriving Repr, DecidableEq

/-- `_command_mainloop` (source lines 94-102) applied to the queue contents:
dequeue one command at a time, in FIFO order, and `await command`; nothing
catches an exception raised by the `await`, so the first raising command
terminates the loop with that exception. -/
def _command_mainloop : List CmdOutcome → DispatcherResult
  | [] => .stillRunning 0
  | .ok :: rest =>
    match _command_mainloop rest with
    | .stillRunning n => .stillRunning (n + 1)
    | .raised e n => .raised e (n + 1)
  | .raises e :: _ => .raised e 0

/-- Fate of one of the three sibling loops awaited by `mainloop`: it
resolves at a virtual time, raises at a virtual time, or runs forever. -/
inductive LoopFate where
  | completesAt (t : Ms)
  | raisesAt (t : Ms) (e : PyError)
  | runsForever
deriving Repr, DecidableEq

/-- Earliest exception among the awaitables of a gather (ties resolved in
favour of the earlier-listed child, matching task creation order). -/
def earliestRaise : List LoopFate → Option (Ms × PyError)
  | [] => none
  | .raisesAt t e :: fs =>
    match earliestRaise fs with
    | none => some (t, e)
    | some q => if q.1 < t then some q else some (t, e)
  | _ :: fs => earliestRaise fs

/-- Do all awaitables of the gather resolve normally? -/
def allCompleted : List LoopFate → Bool
  | [] => true
  | .completesAt _ :: fs => allCompleted fs
  | _ :: _ => false

/-- Time at which the last normally-resolving awaitable resolves. -/
def maxCompletionTime : List LoopFate → Ms
  | [] => 0
  | .completesAt t :: fs => max t (maxCompletionTime fs)
  | _ :: fs => maxCompletionTime fs

/-- How `await asyncio.gather(...)` resolves for the awaiting coroutine. -/
inductive GatherOutcome where
  | allDoneAt (t : Ms)
  | raisedOut (t : Ms) (e : PyError)
  | pending
deriving Repr, DecidableEq

/-- `asyncio.gather` with the default `return_exceptions=False` (the form
used at lines 87-91): it resolves when all children have resolved, and the
first exception raised by a child is propagated to the awaiter at once —
the remaining children are not cancelled and continue to run. -/
def gatherFates (fs : List LoopFate) : GatherOutcome :=
  match earliestRaise fs with
  | some q => .raisedOut q.1 q.2
  | none => if allCompleted fs then .allDoneAt (maxCompletionTime fs) else .pending

/-- Virtual time at which the gather hands control back, if it ever does. -/
def GatherOutcome.resolvesAt : GatherOutcome → Option Ms
  | .allDoneAt t => some t
  | .raisedOut t _ => some t
  | .pending => none

/-- Is this loop still executing at time `t`? -/
def LoopFate.stillRunningAt : LoopFate → Ms → Bool
  | .completesAt s, t => decide (t < s)
  | .raisesAt s _, t => decide (t < s)
  | .runsForever, _ => true

/-- Observable outcome of `await mainloop()`. -/
structure MainloopRun where
  outcome : GatherOutcome
  /-- Whether the composition cancels the still-running sibling loops when
  one of them raises: `asyncio.gather(return_exceptions=False)` does not. -/
  siblingsCancelledOnError : Bool
  /-- Is `_gui_mainloop` still running when `mainloop` hands back control? -/
  guiStillRunningAfter : Option Bool
  /-- Is `_update_func_mainloop` still running at that moment? -/
  updateStillRunningAfter : Option Bool
  /-- Is `_command_mainloop` still running at that moment? -/
  commandStillRunningAfter : Option Bool
deriving Repr, DecidableEq

/-- `mainloop` (source lines 78-91): a single `await asyncio.gather` over
`_gui_mainloop()`, `_update_func_mainloop()` and `_command_mainloop()`,
given the fate each loop would have in this execution. -/
def mainloop (gui upd cmd : LoopFate) : MainloopRun :=
  let outcome := gatherFates [gui, upd, cmd]
  { outcome := outcome
    siblingsCancelledOnError := false
    guiStillRunningAfter := outcome.resolvesAt.map gui.stillRunningAt
    updateStillRunningAfter := outcome.resolvesAt.map upd.stillRunningAt
    commandStillRunningAfter := outcome.resolvesAt.map cmd.stillRunningAt }

/-- A task on the event loop, as the cooperative scheduler sees it: `tid` is
its creation rank (asyncio resumes same-instant tasks in creation order),
`nextSeg` the index of its next synchronous execution segment, `remaining`
the durations of the `await asyncio.sleep` suspensions still ahead of it,
`wakeAt` the virtual time at which it next becomes runnable. -/
structure SimTask where
  tid : Nat
  nextSeg : Nat
  remaining : List Ms
  wakeAt : Ms
deriving Repr, DecidableEq

/-- One observable execution step: task `tid` ran its segment `seg` at
virtual time `time`. -/
structure TraceEv where
  tid : Nat
  seg : Nat
  time : Ms
deriving Repr, DecidableEq

/-- Scheduling order of the cooperative event loop: earlier wake-up time
first, creation order breaking ties. -/
def taskBefore (a b : SimTask) : Bool :=
  a.wakeAt < b.wakeAt || (a.wakeAt == b.wakeAt && a.tid < b.tid)

/-- The runnable task the event loop resumes next. -/
def pickNext : List SimTask → Option SimTask
  | [] => none
  | t :: ts => some (ts.foldl (fun best x => if taskBefore x best then x else best) t)

/-- Resume a task: its next segment runs to the following suspension point
(or to the end of the handler, completing the task). -/
def runSeg (t : SimTask) : TraceEv × Option SimTask :=
  (⟨t.tid, t.nextSeg, t.wakeAt⟩,
    match t.remaining with
    | [] => none
    | d :: ds => some ⟨t.tid, t.nextSeg + 1, ds, t.wakeAt + d⟩)

/-- One step of the event loop: resume the next runnable task. -/
def simStep (ts : List SimTask) : Option (TraceEv × List SimTask) :=
  match pickNext ts with
  | none => none
  | some t =>
    let r := runSeg t
    let rest := ts.filter (fun x => x.tid != t.tid)
    some (r.1, match r.2 with | none => rest | some u => rest ++ [u])

/-- Run the event loop for at most `fuel` resumptions, collecting the trace. -/
def simulateLoop : Nat → List SimTask → List TraceEv
  | 0, _ => []
  | fuel + 1, ts =>
    match simStep ts with
    | none => []
    | some p => p.1 :: simulateLoop fuel p.2

/-- `execute_async_command` (source lines 53-75): the returned wrapper runs
`command = asyncio.gather(async_func())` and only then enqueues `command`.
`asyncio.gather` wraps the coroutine in a `Task` on the running event loop
at the moment of the call (via `ensure_future`), so the handler is scheduled
as soon as the synchronous callback fires — before, and independently of,
the dispatcher later dequeuing the gather future at lines 100-101.
`scheduleHandlers hs` is therefore the task set created by invoking the
wrappers of handlers with the given await durations, in order, at time 0. -/
def scheduleHandlers (hs : List (List Ms)) : List SimTask :=
  hs.enum.map (fun p => ⟨p.1, 0, p.2, 0⟩)

/-- Position in the trace of the first segment task `tid` ran. -/
def firstEvIdx (tr : List TraceEv) (tid : Nat) : Nat :=
  tr.findIdx (fun e => e.tid == tid)

/-- Position in the trace of segment `lastSeg` of task `tid` (its final
segment: the handler has run to completion once it executes). -/
def finalEvIdx (tr : List TraceEv) (tid lastSeg : Nat) : Nat :=
  tr.findIdx (fun e => e.tid == tid && e.seg == lastSeg)

/-- The failing input for the serialization claim: handlers A (task 0) and
B (task 1), each consisting of a first segment, one
`await asyncio.sleep(100 ms)`, and a final segment; both wrappers invoked
in order A, B at time 0, before any dispatcher iteration. -/
def c1Handlers : List (List Ms) := [[100], [100]]

/-- The event-loop trace the failing input produces. -/
def c1Trace : List TraceEv := simulateLoop 8 (scheduleHandlers c1Handlers)

/-- No operation performed after construction writes `application_closed`. -/
theorem applyOp_preserves_closed (st : AppState) (op : Op) :
    (applyOp st op).application_closed = st.application_closed := by
  cases op <;> simp only [applyOp] <;> (first | rfl | (split <;> rfl))

/-- The flag survives any sequence of operations unchanged. -/
theorem foldl_applyOp_closed (ops : List Op) (st : AppState) :
    (ops.foldl applyOp st).application_closed = st.application_closed := by
  induction ops generalizing st with
  | nil => rfl
  | cons op rest ih => rw [List.foldl_cons, ih (applyOp st op), applyOp_preserves_closed]

theorem listMax_cons (b : Ms) (t : List Ms) : listMax (b :: t) = max b (listMax t) := rfl

/-- Every completion time is bounded by the inner gather's resolution time. -/
theorem le_listMax_of_mem {a : Ms} {l : List Ms} (h : a ∈ l) : a ≤ listMax l := by
  induction l with
  | nil => cases h
  | cons b t ih =>
    rw [listMax_cons]
    rcases List.mem_cons.mp h with rfl | hm
    · exact le_max_left _ _
    · exact le_trans (ih hm) (le_max_right _ _)

/-- A callable slower than the interval forces the inner gather past the
deadline. -/
theorem lt_listMax_of_exists {interval : Ms} {reg : List FuncId} {durOf : FuncId → Ms}
    (h : ∃ f ∈ reg, interval < durOf f) :
    interval < listMax (reg.map durOf) := by
  obtain ⟨f, hf, hlt⟩ := h
  exact lt_of_lt_of_le hlt (le_listMax_of_mem (List.mem_map_of_mem durOf hf))

/-- An update cycle always takes exactly the configured interval: the
`asyncio.sleep(interval)` floor when the tasks finish early, the
`asyncio.wait_for` deadline when they do not. -/
theorem updateCycle_duration_eq (interval : Ms) (reg : List FuncId) (durOf : FuncId → Ms)
    (muts : List RegMutation) :
    (updateCycle interval reg durOf muts).duration = interval := by
  simp only [updateCycle]
  split_ifs with h
  · rfl
  · exact max_eq_right (le_of_not_lt h)

/-- C5: the Termination Signal `_application_closed` is assigned exactly once,
in `__init__` (line 22, to `False`); no public operation and no iteration of
any of the three loops ever writes it, so in every reachable state the flag
is still `false` and the exit check of `_update_func_mainloop` (lines
142-143) never fires — the coordinated-shutdown path is unreachable. -/
theorem C5_termination_signal_never_set (update_interval : Ms) (ops : List Op) :
    (AsyncCTK_init update_interval).application_closed = false ∧
    (runOps update_interval ops).application_closed = false ∧
    update_loop_exit_check (runOps update_interval ops) = false := by
  have h : (runOps update_interval ops).application_closed = false := by
    rw [runOps, foldl_applyOp_closed]
    rfl
  exact ⟨rfl, h, h⟩

/-- C3: every update-scheduler cycle lasts at least the configured interval —
however fast its tasks finish, and for the empty registry as an idle tick —
and cycle `n + 1` never starts before cycle `n`'s floor/deadline
(`start of cycle n + interval`) has resolved. -/
theorem C3_cycle_floor (interval : Ms) (reg : List FuncId) (durOf : FuncId → Ms)
    (muts : List RegMutation) (reg0 : List FuncId) (durOfN : Nat → FuncId → Ms)
    (mutsN : Nat → List RegMutation) (n : Nat) :
    interval ≤ (updateCycle interval reg durOf muts).duration ∧
    (updateCycle interval [] durOf muts).duration = interval ∧
    (schedulerState interval reg0 durOfN mutsN n).1 + interval ≤
      (schedulerState interval reg0 durOfN mutsN (n + 1)).1 := by
  refine ⟨?_, updateCycle_duration_eq .., ?_⟩
  · rw [updateCycle_duration_eq]
  · simp [schedulerState, updateCycle_duration_eq]

/-- C2: when some update callable of a cycle needs longer than the interval
deadline, the cycle reports exactly one overrun warning, and that warning
names the configured interval (lines 138-140); every callable still pending
at the deadline is cancelled by `asyncio.wait_for`; the cycle resolves at
the deadline — strictly before the slow callable would have finished — and
the loop goes on: the next cycle starts one interval later. -/
theorem C2_overrun_cycle (interval : Ms) (reg : List FuncId) (durOf : FuncId → Ms)
    (muts : List RegMutation)
    (h : ∃ f ∈ reg, interval < durOf f) :
    (updateCycle interval reg durOf muts).overrun_reports = [interval] ∧
    (updateCycle interval reg durOf muts).duration = interval ∧
    (∀ f ∈ reg, interval < durOf f →
      (updateCycle interval reg durOf muts).duration < durOf f) ∧
    (updateCycle interval reg durOf muts).cancelled =
      reg.map (fun f => decide (interval < durOf f)) ∧
    (∀ reg0 durOfN mutsN n,
      (schedulerState interval reg0 durOfN mutsN (n + 1)).1 =
        (schedulerState interval reg0 durOfN mutsN n).1 + interval) := by
  have hlt := lt_listMax_of_exists h
  refine ⟨?_, updateCycle_duration_eq .., ?_, ?_, ?_⟩
  · simp [updateCycle, hlt]
  · intro f hf hflt
    rw [updateCycle_duration_eq]
    exact hflt
  · simp [updateCycle, List.map_map, Function.comp]
  · intro reg0 durOfN mutsN n
    simp [schedulerState, updateCycle_duration_eq]

/-- Witness for C2 at the spec's concrete scenario: interval 1000 ms, one
registered callable whose coroutine needs 1100 ms. -/
theorem C2_overrun_cycle_witness :
    (∃ f ∈ [(0 : FuncId)], 1000 < (fun _ : FuncId => 1100) f) ∧
    (updateCycle 1000 [0] (fun _ => 1100) []).overrun_reports = [1000] ∧
    (updateCycle 1000 [0] (fun _ => 1100) []).duration = 1000 := by
  have h := C2_overrun_cycle 1000 [0] (fun _ => 1100) [] (by decide)
  exact ⟨by decide, h.1, h.2.1⟩

/-- C6: the set of callables a cycle invokes is exactly the line-131
snapshot of the registry at cycle start: it does not depend on the
mutations performed while the cycle is in flight, and those mutations are
exactly what the next cycle's snapshot sees. -/
theorem C6_snapshot_semantics (interval : Ms) (reg : List FuncId) (durOf : FuncId → Ms)
    (muts muts2 : List RegMutation) (reg0 : List FuncId) (durOfN : Nat → FuncId → Ms)
    (mutsN : Nat → List RegMutation) (n : Nat) :
    (updateCycle interval reg durOf muts).invoked = reg ∧
    (updateCycle interval reg durOf muts).invoked =
      (updateCycle interval reg durOf muts2).invoked ∧
    (updateCycle interval reg durOf muts).registryAfter =
      muts.foldl applyRegMutation reg ∧
    cycleTaskSet interval reg0 durOfN mutsN (n + 1) =
      (mutsN n).foldl applyRegMutation (cycleTaskSet interval reg0 durOfN mutsN n) := by
  exact ⟨rfl, rfl, rfl, rfl⟩

/-- C7: `add_update_func` appends at the end (preserving the order of the
entries already present) and admits duplicates — the count of the added
function grows by one even when it is already registered; and for a
registered function, `remove_update_func` removes the first entry that is
identical to it, leaving every entry before and after that occurrence in
their relative order. -/
theorem C7_registry_ops (l : List FuncId) (f : FuncId) :
    add_update_func l f = l ++ [f] ∧
    (add_update_func l f).count f = l.count f + 1 ∧
    (f ∈ l → ∃ l₁ l₂, f ∉ l₁ ∧ l = l₁ ++ f :: l₂ ∧
      remove_update_func l f = .ok (l₁ ++ l₂)) := by
  refine ⟨rfl, ?_, ?_⟩
  · simp [add_update_func]
  · intro h
    obtain ⟨l₁, l₂, hn, he, her⟩ := List.exists_erase_eq h
    exact ⟨l₁, l₂, hn, he, by simp [remove_update_func, list_remove, h, her]⟩

/-- Witness for C7: registry `[1, 2, 1, 3]`, removing `1` — the first of the
two duplicate entries goes, the rest keep their order. -/
theorem C7_registry_ops_witness :
    (1 : FuncId) ∈ [1, 2, 1, 3] ∧
    (∃ l₁ l₂, (1 : FuncId) ∉ l₁ ∧ [1, 2, 1, 3] = l₁ ++ 1 :: l₂ ∧
      remove_update_func [1, 2, 1, 3] 1 = .ok (l₁ ++ l₂)) :=
  ⟨by decide, (C7_registry_ops [1, 2, 1, 3] 1).2.2 (by decide)⟩

/-- Sample instance state used to witness the removal-of-an-absent-function
behaviour. -/
def sampleState : AppState :=
  { update_interval := 1000
    update_funcs := [1, 2]
    commands_queue := []
    application_closed := false
    window_exists := true }

/-- C10: removing a function that occurs nowhere in the registry raises
`ValueError` (from Python `list.remove`), and the instance state — the
registry in particular — is left unchanged. -/
theorem C10_remove_absent_raises (st : AppState) (f : FuncId)
    (h : f ∉ st.update_funcs) :
    remove_update_func st.update_funcs f = .error .valueError ∧
    applyOp st (.opRemove f) = st := by
  have hr : remove_update_func st.update_funcs f = .error .valueError := by
    simp [remove_update_func, list_remove, h]
  refine ⟨hr, ?_⟩
  simp [applyOp, hr]

/-- Witness for C10: removing the unregistered function `5` from a state
whose registry is `[1, 2]`. -/
theorem C10_remove_absent_raises_witness :
    (5 : FuncId) ∉ sampleState.update_funcs ∧
    remove_update_func sampleState.update_funcs 5 = .error .valueError ∧
    applyOp sampleState (.opRemove 5) = sampleState :=
  ⟨by decide, (C10_remove_absent_raises sampleState 5 (by decide)).1,
    (C10_remove_absent_raises sampleState 5 (by decide)).2⟩

/-- C8: each GUI-pump iteration drains exactly the currently pending native
events (the inner `dooneevent` loop), then queries window liveness: a
destroyed window (a raising `winfo_exists`) ends the pump loop as a normal
exit with no further iteration, and a live window leads to a fixed 10 ms
suspension before the next iteration. -/
theorem C8_gui_pump_tick (inp : GuiTickInput) (rest : List GuiTickInput) :
    (gui_tick inp).processed = inp.pendingEvents ∧
    (inp.windowAlive = false →
      gui_tick inp = .exited inp.pendingEvents ∧
      gui_mainloop_run (inp :: rest) = ([.exited inp.pendingEvents], .normalExit)) ∧
    (inp.windowAlive = true → gui_tick inp = .looped inp.pendingEvents 10) := by
  refine ⟨?_, ?_, ?_⟩
  · cases hA : inp.windowAlive <;> simp [gui_tick, hA, GuiTickResult.processed]
  · intro hA
    refine ⟨by simp [gui_tick, hA], ?_⟩
    simp [gui_mainloop_run, gui_tick, hA]
  · intro hA
    simp [gui_tick, hA]

/-- Witness for C8: an iteration with three pending events and a destroyed
window exits normally; one with five pending events and a live window loops
after the 10 ms suspension. -/
theorem C8_gui_pump_tick_witness :
    gui_mainloop_run [⟨3, false⟩] = ([.exited 3], .normalExit) ∧
    gui_tick ⟨5, true⟩ = .looped 5 10 :=
  ⟨((C8_gui_pump_tick ⟨3, false⟩ []).2.1 rfl).2, (C8_gui_pump_tick ⟨5, true⟩ []).2.2 rfl⟩

/-- C9: the dispatcher has no `try` around `await command` (lines 98-102):
when a dequeued command raises an unrecovered error — the commands before it
having completed normally — the exception escapes the `while True` loop,
terminating the dispatcher with exactly the preceding commands executed. -/
theorem C9_dispatcher_error_propagates (pre : List CmdOutcome) (e : PyError)
    (post : List CmdOutcome) (h : ∀ c ∈ pre, c = CmdOutcome.ok) :
    _command_mainloop (pre ++ CmdOutcome.raises e :: post) = .raised e pre.length := by
  induction pre with
  | nil => rfl
  | cons c t ih =>
    have hc : c = CmdOutcome.ok := h c (List.mem_cons_self c t)
    subst hc
    have ht : ∀ x ∈ t, x = CmdOutcome.ok := fun x hx => h x (List.mem_cons_of_mem _ hx)
    simp [List.cons_append, _command_mainloop, ih ht]

/-- Witness for C9: two completing commands followed by a raising one (and
one more queued behind it): the dispatcher terminates raising that error
after executing exactly the first two commands. -/
theorem C9_dispatcher_error_propagates_witness :
    (∀ c ∈ [CmdOutcome.ok, CmdOutcome.ok], c = CmdOutcome.ok) ∧
    _command_mainloop
        ([CmdOutcome.ok, CmdOutcome.ok] ++ CmdOutcome.raises (.other 7) :: [CmdOutcome.ok]) =
      .raised (.other 7) 2 :=
  ⟨by decide,
    C9_dispatcher_error_propagates [CmdOutcome.ok, CmdOutcome.ok] (.other 7)
      [CmdOutcome.ok] (by decide)⟩

/-- C4 (amended): `mainloop` awaits the three loops concurrently under one
cooperative scheduler through a single `asyncio.gather`; it completes
normally exactly when all three loops complete, and if any loop raises an
unrecovered error it completes immediately by propagating that error — but
the other still-running loops are not cancelled: `asyncio.gather` with the
default `return_exceptions=False` leaves them running. -/
theorem C4_mainloop_composition (gui upd cmd : LoopFate) (t1 t2 t3 t : Ms)
    (e : PyError) :
    (gui = .completesAt t1 → upd = .completesAt t2 → cmd = .completesAt t3 →
      (mainloop gui upd cmd).outcome = .allDoneAt (max t1 (max t2 t3))) ∧
    (mainloop gui upd cmd).siblingsCancelledOnError = false ∧
    (earliestRaise [gui, upd, cmd] = some (t, e) →
      (mainloop gui upd cmd).outcome = .raisedOut t e ∧
      (gui = .runsForever →
        (mainloop gui upd cmd).guiStillRunningAfter = some true) ∧
      (upd = .runsForever →
        (mainloop gui upd cmd).updateStillRunningAfter = some true)) := by
  refine ⟨?_, rfl, ?_⟩
  · rintro rfl rfl rfl
    simp [mainloop, gatherFates, earliestRaise, allCompleted, maxCompletionTime,
      Nat.max_zero]
  · intro hr
    refine ⟨by simp [mainloop, gatherFates, hr], ?_, ?_⟩
    · rintro rfl
      simp [mainloop, gatherFates, hr, GatherOutcome.resolvesAt, LoopFate.stillRunningAt]
    · rintro rfl
      simp [mainloop, gatherFates, hr, GatherOutcome.resolvesAt, LoopFate.stillRunningAt]

/-- Witness for C4: three completing loops resolve together at the latest
completion; a dispatcher raising at 6 ms propagates out while the
never-ending GUI pump is still running. -/
theorem C4_mainloop_composition_witness :
    (mainloop (.completesAt 3) (.completesAt 9) (.completesAt 4)).outcome =
      .allDoneAt (max 3 (max 9 4)) ∧
    (mainloop .runsForever (.completesAt 2) (.raisesAt 6 .valueError)).outcome =
      .raisedOut 6 .valueError ∧
    (mainloop .runsForever (.completesAt 2) (.raisesAt 6 .valueError)).guiStillRunningAfter
      = some true :=
  ⟨(C4_mainloop_composition (.completesAt 3) (.completesAt 9) (.completesAt 4)
      3 9 4 0 .valueError).1 rfl rfl rfl,
    ((C4_mainloop_composition .runsForever (.completesAt 2) (.raisesAt 6 .valueError)
      0 0 0 6 .valueError).2.2 rfl).1,
    ((C4_mainloop_composition .runsForever (.completesAt 2) (.raisesAt 6 .valueError)
      0 0 0 6 .valueError).2.2 rfl).2.1 rfl⟩

/-- C4 counterexample: the command dispatcher raises at 5 ms while the other
two loops are still running; `mainloop` propagates the error at once, but —
against the claim's "cancelling the other still-running loops" — nothing is
cancelled, and both siblings are still running when `mainloop` completes. -/
theorem C4_counterexample :
    (mainloop .runsForever .runsForever (.raisesAt 5 (.other 0))).outcome =
      .raisedOut 5 (.other 0) ∧
    (mainloop .runsForever .runsForever (.raisesAt 5 (.other 0))).siblingsCancelledOnError
      = false ∧
    (mainloop .runsForever .runsForever (.raisesAt 5 (.other 0))).guiStillRunningAfter =
      some true ∧
    (mainloop .runsForever .runsForever (.raisesAt 5 (.other 0))).updateStillRunningAfter =
      some true := by
  decide

/-- C1, evaluated at the failing input.  Handlers A (task 0) and B (task 1)
are submitted in order at time 0 through wrappers produced by
`execute_async_command`; line 70's `asyncio.gather` schedules each handler
the moment its callback runs, so the event-loop trace interleaves them: B's
first segment (trace position 1, at time 0) executes before A's final
segment (trace position 2, at time 100) — handler B begins before handler A
has run to completion, violating the claimed strict serialization.  The
dispatcher's `await command` (line 101) merely awaits the already-running
gather future and imposes no serialization on the handlers themselves. -/
theorem C1_handlers_overlap :
    c1Trace = [⟨0, 0, 0⟩, ⟨1, 0, 0⟩, ⟨0, 1, 100⟩, ⟨1, 1, 100⟩] ∧
    firstEvIdx c1Trace 1 < finalEvIdx c1Trace 0 1 := by
  decide

end ACTK
